import Mathlib

/-
  Verification development for the spack-trace repository.

  The repository has two C source files:
    src/trace/posixmq.c                                (queue client library)
    src/spack_repo/trace_repo/packages/mqsend/mqsend.c (send CLI)

  Both are thin wrappers over the POSIX message-queue syscalls
  (mq_open, mq_getattr, mq_close, mq_unlink, mq_send, mq_receive).
  We model the OS queue namespace and those syscalls explicitly
  (state passing over MQState), and translate the C functions of the
  repository on top of that model, statement by statement,
  including their output to stdout/stderr and their out-parameters.

  Machine integers: the C code stores the ssize_t result of mq_receive
  in a size_t variable; we model size_t values as Nat reduced mod 2^64,
  making the conversion of the error value -1 explicit.
-/

namespace SpackTrace

/-- errno values used by the POSIX model, with Linux numbering. -/
def ENOENT : Nat := 2

/-- errno EBADF, bad file descriptor. -/
def EBADF : Nat := 9

/-- errno EINVAL, invalid argument. -/
def EINVAL : Nat := 22

/-- errno EMSGSIZE, message too long (also: receive buffer smaller than mq_msgsize). -/
def EMSGSIZE : Nat := 90

/-- Highest message priority accepted by mq_send is MQ_PRIO_MAX - 1. -/
def MQ_PRIO_MAX : Nat := 32768

/-- Number of values of the C type size_t (64-bit model). -/
def UINT64_CAP : Nat := 2 ^ 64

/-- A queued message: payload bytes and priority. -/
structure Message where
  bytes : List Nat
  prio : Nat
deriving DecidableEq

/-- One named queue: its fixed mq_attr capacities and its current contents.
The list msgs is kept in dequeue order: head = highest priority, FIFO
among equal priorities. -/
structure Queue where
  mq_maxmsg : Nat
  mq_msgsize : Nat
  msgs : List Message
deriving DecidableEq

/-- The OS state the syscalls act on: the queue namespace, the table of
open descriptors of this process, and the next fresh descriptor. -/
structure MQState where
  queues : List (String × Queue)
  fds : List (Nat × String)
  nextFd : Nat
deriving DecidableEq

/-- Replace the queue stored under a name (all occurrences of the key). -/
def setQueue (name : String) (q : Queue) (st : MQState) : MQState :=
  { st with queues := st.queues.map (fun p => if p.1 = name then (p.1, q) else p) }

/-- Resolve an open descriptor to its queue name and current queue. -/
def fdQueue (st : MQState) (fd : Nat) : Option (String × Queue) :=
  match st.fds.lookup fd with
  | none => none
  | some name =>
    match st.queues.lookup name with
    | none => none
    | some q => some (name, q)

/-- Result of a POSIX syscall that never blocks: a value or an errno,
together with the state after the call. -/
inductive NRes (α : Type) where
  | ok (v : α) (st : MQState)
  | err (e : Nat) (st : MQState)
deriving DecidableEq

/-- Result of a possibly blocking POSIX syscall: in this layer every call
uses blocking semantics, so a full-queue send or empty-queue receive
blocks instead of returning. -/
inductive BRes (α : Type) where
  | ok (v : α) (st : MQState)
  | err (e : Nat) (st : MQState)
  | block
deriving DecidableEq

/-- Modelled POSIX restriction on queue names: a name must begin with a slash. -/
def validName (s : String) : Bool :=
  match s.data with
  | c :: _ => c == '/'
  | [] => false

/-- Models mq_open(name, O_CREAT | O_RDWR, 0644, attrs): creates the queue
with the given capacities if absent (EINVAL on zero capacities), opens the
existing queue otherwise (the capacity arguments are then ignored), and
returns a fresh descriptor. -/
def mq_open_create (name : String) (mq_msgsize mq_maxmsg : Nat) (st : MQState) : NRes Nat :=
  if validName name = false then .err EINVAL st
  else
    match st.queues.lookup name with
    | some _ =>
      .ok st.nextFd
        { st with fds := (st.nextFd, name) :: st.fds, nextFd := st.nextFd + 1 }
    | none =>
      if mq_msgsize = 0 ∨ mq_maxmsg = 0 then .err EINVAL st
      else
        .ok st.nextFd
          { st with
            queues := (name, ⟨mq_maxmsg, mq_msgsize, []⟩) :: st.queues,
            fds := (st.nextFd, name) :: st.fds,
            nextFd := st.nextFd + 1 }

/-- Models mq_open(name, O_RDWR): opens an existing queue, ENOENT when the
name is not in the namespace. -/
def mq_open_plain (name : String) (st : MQState) : NRes Nat :=
  if validName name = false then .err EINVAL st
  else
    match st.queues.lookup name with
    | none => .err ENOENT st
    | some _ =>
      .ok st.nextFd
        { st with fds := (st.nextFd, name) :: st.fds, nextFd := st.nextFd + 1 }

/-- Models mq_getattr: returns (mq_maxmsg, mq_msgsize) of the queue behind
a descriptor, EBADF on an invalid descriptor. -/
def mq_getattr (fd : Nat) (st : MQState) : NRes (Nat × Nat) :=
  match fdQueue st fd with
  | none => .err EBADF st
  | some (_, q) => .ok (q.mq_maxmsg, q.mq_msgsize) st

/-- Models mq_close: removes the descriptor from the table, EBADF when it
is not open. -/
def mq_close (fd : Nat) (st : MQState) : NRes Unit :=
  match st.fds.lookup fd with
  | none => .err EBADF st
  | some _ => .ok () { st with fds := st.fds.filter (fun p => p.1 ≠ fd) }

/-- Models mq_unlink: removes the name from the namespace, ENOENT when it
does not exist. -/
def mq_unlink (name : String) (st : MQState) : NRes Unit :=
  if validName name = false then .err ENOENT st
  else
    match st.queues.lookup name with
    | none => .err ENOENT st
    | some _ => .ok () { st with queues := st.queues.filter (fun p => p.1 ≠ name) }

/-- Insert a message behind every already-queued message of priority ≥ its
own: the queue list stays in dequeue order (highest priority first, FIFO
among equal priorities). -/
def insertMsg (m : Message) : List Message → List Message
  | [] => [m]
  | x :: xs => if m.prio ≤ x.prio then x :: insertMsg m xs else m :: x :: xs

/-- Models mq_send(fd, msg, size, prio) in blocking mode: EBADF on an
invalid descriptor, EINVAL on a priority outside the OS range, EMSGSIZE
when size exceeds the queue's mq_msgsize, blocks when the queue is full,
otherwise enqueues the first size bytes of msg. -/
def mq_send (fd : Nat) (msg : List Nat) (size : Nat) (prio : Nat) (st : MQState) : BRes Unit :=
  match fdQueue st fd with
  | none => .err EBADF st
  | some (name, q) =>
    if MQ_PRIO_MAX ≤ prio then .err EINVAL st
    else if q.mq_msgsize < size then .err EMSGSIZE st
    else if q.mq_maxmsg ≤ q.msgs.length then .block
    else .ok () (setQueue name { q with msgs := insertMsg ⟨msg.take size, prio⟩ q.msgs } st)

/-- Models mq_receive(fd, buf, cap, prio_out) in blocking mode: EBADF on an
invalid descriptor, EMSGSIZE when the buffer capacity is below the queue's
mq_msgsize (the message is NOT dequeued), blocks on an empty queue,
otherwise dequeues the head message and returns its bytes and priority. -/
def mq_receive (fd : Nat) (cap : Nat) (st : MQState) : BRes (List Nat × Nat) :=
  match fdQueue st fd with
  | none => .err EBADF st
  | some (name, q) =>
    if cap < q.mq_msgsize then .err EMSGSIZE st
    else
      match q.msgs with
      | [] => .block
      | m :: rest => .ok (m.bytes, m.prio) (setQueue name { q with msgs := rest } st)

/-- The line printf("Errno: %d\n", errno) writes to standard output. -/
def errnoLine (e : Nat) : String := "Errno: " ++ toString e ++ "\n"

/-- Result of posixmq_open_create: return value, the out-parameter
mq_id_out (none = not written), and the text printed on each stream. -/
structure OpenCreateRes where
  ret : Int
  mq_id_out : Option Nat
  stdout : List String
  stderr : List String
  st : MQState
deriving DecidableEq

/-- posixmq_open_create, src/trace/posixmq.c lines 8-19: call mq_open with
O_CREAT | O_RDWR and the given attributes; on failure print the errno via
printf (stdout) and return -1; on success store the descriptor in
*mq_id_out and return 0. -/
def posixmq_open_create (name : String) (max_msg_size max_queue_size : Nat)
    (st : MQState) : OpenCreateRes :=
  match mq_open_create name max_msg_size max_queue_size st with
  | .err e st' =>
    { ret := -1, mq_id_out := none, stdout := [errnoLine e], stderr := [], st := st' }
  | .ok mqd st' =>
    { ret := 0, mq_id_out := some mqd, stdout := [], stderr := [], st := st' }

/-- Result of posixmq_open_existing: return value and the three
out-parameters (none = left uninitialized). -/
structure OpenExistingRes where
  ret : Int
  mq_id_out : Option Nat
  max_msg_size_out : Option Nat
  max_queue_size_out : Option Nat
  stdout : List String
  stderr : List String
  st : MQState
deriving DecidableEq

/-- posixmq_open_existing, src/trace/posixmq.c lines 21-36: call mq_open
with O_RDWR only; on failure print the errno via printf (stdout) and
return -1; on success call mq_getattr (its result is not checked), store
the descriptor and the attributes into the out-parameters and return 0. -/
def posixmq_open_existing (name : String) (st : MQState) : OpenExistingRes :=
  match mq_open_plain name st with
  | .err e st' =>
    { ret := -1, mq_id_out := none, max_msg_size_out := none, max_queue_size_out := none,
      stdout := [errnoLine e], stderr := [], st := st' }
  | .ok mqd st' =>
    match mq_getattr mqd st' with
    | .ok (maxmsg, msgsize) st2 =>
      { ret := 0, mq_id_out := some mqd, max_msg_size_out := some msgsize,
        max_queue_size_out := some maxmsg, stdout := [], stderr := [], st := st2 }
    | .err _ st2 =>
      -- mq_getattr failed and its result is unchecked: attrs stays uninitialized
      { ret := 0, mq_id_out := some mqd, max_msg_size_out := none,
        max_queue_size_out := none, stdout := [], stderr := [], st := st2 }

/-- Result of an operation with no out-parameters (close, unlink, send). -/
structure UnitRes where
  ret : Int
  stdout : List String
  stderr : List String
  st : MQState
deriving DecidableEq

/-- posixmq_close, src/trace/posixmq.c lines 38-45: call mq_close; on
failure print the errno via printf (stdout) and return -1, else return 0. -/
def posixmq_close (mq : Nat) (st : MQState) : UnitRes :=
  match mq_close mq st with
  | .err e st' => { ret := -1, stdout := [errnoLine e], stderr := [], st := st' }
  | .ok _ st' => { ret := 0, stdout := [], stderr := [], st := st' }

/-- posixmq_unlink, src/trace/posixmq.c lines 47-55: call mq_unlink; on
failure print the errno via printf (stdout) and return -1, else return 0. -/
def posixmq_unlink (name : String) (st : MQState) : UnitRes :=
  match mq_unlink name st with
  | .err e st' => { ret := -1, stdout := [errnoLine e], stderr := [], st := st' }
  | .ok _ st' => { ret := 0, stdout := [], stderr := [], st := st' }

/-- posixmq_send, src/trace/posixmq.c lines 57-65: call mq_send; on failure
print the errno via printf (stdout) and return -1, else return 0. Returns
none when the syscall blocks (full queue). -/
def posixmq_send (mq : Nat) (msg : List Nat) (size : Nat) (priority : Nat)
    (st : MQState) : Option UnitRes :=
  match mq_send mq msg size priority st with
  | .block => none
  | .err e st' => some { ret := -1, stdout := [errnoLine e], stderr := [], st := st' }
  | .ok _ st' => some { ret := 0, stdout := [], stderr := [], st := st' }

/-- Result of posixmq_recv: return value, the bytes written into buf_out
(none = buffer untouched), the final value of *size_inout, the value
written to *priority_out (none = left uninitialized). -/
structure RecvRes where
  ret : Int
  buf_out : Option (List Nat)
  size_inout : Nat
  priority_out : Option Nat
  stdout : List String
  stderr : List String
  st : MQState
deriving DecidableEq

/-- posixmq_recv, src/trace/posixmq.c lines 67-77, translated faithfully:
the C code stores the ssize_t result of mq_receive in a variable of the
UNSIGNED type size_t (res), so on syscall failure res holds the value -1
converted to size_t, i.e. 2^64 - 1; the check if (res < 0) compares
unsigned values and is false on every path, so the error branch (printf
plus return -1) is dead code, *size_inout receives res, and the function
returns 0. Returns none when the syscall blocks (empty queue). -/
def posixmq_recv (mq : Nat) (size_in : Nat) (st : MQState) : Option RecvRes :=
  match mq_receive mq size_in st with
  | .block => none
  | .err e st' =>
    -- size_t res = mq_receive(...); the return value -1 converts to 2^64 - 1
    let res : Nat := (((-1 : Int)) % (UINT64_CAP : Int)).toNat
    if res < 0 then
      -- dead branch: res is unsigned, res < 0 never holds
      some { ret := -1, buf_out := none, size_inout := size_in, priority_out := none,
             stdout := [errnoLine e], stderr := [], st := st' }
    else
      some { ret := 0, buf_out := none, size_inout := res, priority_out := none,
             stdout := [], stderr := [], st := st' }
  | .ok (bs, p) st' =>
    let res : Nat := bs.length % UINT64_CAP
    if res < 0 then
      -- dead branch: res is unsigned, res < 0 never holds; errno is
      -- unspecified after a successful syscall, modelled as 0
      some { ret := -1, buf_out := some bs, size_inout := size_in, priority_out := some p,
             stdout := [errnoLine 0], stderr := [], st := st' }
    else
      some { ret := 0, buf_out := some bs, size_inout := res, priority_out := some p,
             stdout := [], stderr := [], st := st' }

/-- Accumulate the longest leading run of decimal digits, C-atoi style. -/
def atoiDigits : List Char → Nat → Nat
  | c :: cs, acc => if c.isDigit then atoiDigits cs (acc * 10 + (c.toNat - 48)) else acc
  | [], acc => acc

/-- Models C atoi: skip leading whitespace, read an optional sign, then the
longest run of digits; non-numeric input yields 0 (int overflow is not
modelled, the CLI only compares the result against nothing). -/
def atoi (s : String) : Int :=
  match s.data.dropWhile Char.isWhitespace with
  | '-' :: rest => -(atoiDigits rest 0 : Int)
  | '+' :: rest => (atoiDigits rest 0 : Int)
  | cs => (atoiDigits cs 0 : Int)

/-- UTF-8 encoding of one character, as byte values. -/
def utf8Bytes (c : Char) : List Nat :=
  let n := c.toNat
  if n < 128 then [n]
  else if n < 2048 then [192 + n / 64, 128 + n % 64]
  else if n < 65536 then [224 + n / 4096, 128 + (n / 64) % 64, 128 + n % 64]
  else [240 + n / 262144, 128 + (n / 4096) % 64, 128 + (n / 64) % 64, 128 + n % 64]

/-- Byte content of a C string argument (UTF-8 bytes, no NUL terminator);
strlen of the argument is the length of this list. -/
def strBytes (s : String) : List Nat :=
  s.data.foldr (fun c acc => utf8Bytes c ++ acc) []

/-- Observable outcome of one run of the mqsend CLI: exit code, the text
printed on each stream, the trace of queue names passed to mq_open, and
the trace of (bytes, priority) pairs passed to mq_send. -/
structure CliRes where
  exit : Int
  stdout : List String
  stderr : List String
  opens : List String
  sends : List (List Nat × Nat)
  st : MQState
deriving DecidableEq

/-- main of src/spack_repo/trace_repo/packages/mqsend/mqsend.c. argv is
the full argument vector including argv[0], so argc = argv.length and the
three positional arguments require argv.length = 4. Steps: validate
argc != 4 (perror writes the usage line to stderr, exit 1); parse
priority = atoi(argv[3]); open the queue with mq_open(name, O_RDWR) (on
failure print name and errno to stderr, exit 1); send the message bytes
at the HARDCODED priority 1 — the parsed priority is never used — (on
failure print errno to stderr, exit 1); exit 0. Returns none when the
process blocks inside mq_send. -/
def mqsend_main (argv : List String) (st : MQState) : Option CliRes :=
  if argv.length ≠ 4 then
    some { exit := 1, stdout := [],
           stderr := ["Usage: mqsend QUEUE_NAME MSG PRIO"],
           opens := [], sends := [], st := st }
  else
    let queue_name := argv.getD 1 ""
    let msg := argv.getD 2 ""
    let priority := atoi (argv.getD 3 "")
    match mq_open_plain queue_name st with
    | .err e st' =>
      some { exit := 1, stdout := [],
             stderr := ["Opening queue: " ++ queue_name ++ " failed with error: "
                          ++ toString e ++ "\n"],
             opens := [queue_name], sends := [], st := st' }
    | .ok mqd st' =>
      let msg_len := (strBytes msg).length
      match mq_send mqd (strBytes msg) msg_len 1 st' with
      | .block => none
      | .err e st2 =>
        some { exit := 1, stdout := [],
               stderr := ["Message send failed with error: " ++ toString e ++ "\n"],
               opens := [queue_name], sends := [(strBytes msg, 1)], st := st2 }
      | .ok _ st2 =>
        some { exit := 0, stdout := [], stderr := [],
               opens := [queue_name], sends := [(strBytes msg, 1)], st := st2 }

/-- The OS state with no queues and no open descriptors. -/
def emptyState : MQState := { queues := [], fds := [], nextFd := 0 }

/-- A queue with mq_msgsize 8 holding one message of 3 bytes at priority 5. -/
def bugQueue : Queue := { mq_maxmsg := 10, mq_msgsize := 8, msgs := [⟨[1, 2, 3], 5⟩] }

/-- A state where descriptor 0 is open on the queue named /q above. -/
def bugState : MQState := { queues := [("/q", bugQueue)], fds := [(0, "/q")], nextFd := 1 }

/-- A state where descriptor 0 is open on an empty queue /q with
mq_msgsize 8 and mq_maxmsg 10. -/
def roundState : MQState :=
  { queues := [("/q", { mq_maxmsg := 10, mq_msgsize := 8, msgs := [] })],
    fds := [(0, "/q")], nextFd := 1 }

/-- The outcome of the successful CLI run used as concrete instance below. -/
def runRes : CliRes :=
  { exit := 0, stdout := [], stderr := [], opens := ["/q"], sends := [([104, 105], 1)],
    st := { queues := [("/q", { mq_maxmsg := 10, mq_msgsize := 8,
                                msgs := [⟨[104, 105], 1⟩] })],
            fds := [(1, "/q"), (0, "/q")], nextFd := 2 } }

/-- Updating a key that is present makes lookup return the new value. -/
theorem lookup_map_update (name : String) (q' : Queue) :
    ∀ l : List (String × Queue), (l.lookup name).isSome = true →
      (l.map (fun p => if p.1 = name then (p.1, q') else p)).lookup name = some q' := by
  intro l
  induction l with
  | nil => intro h; simp [List.lookup] at h
  | cons p t ih =>
    intro h
    obtain ⟨a, b⟩ := p
    rw [List.map_cons]
    by_cases hn : a = name
    · subst hn
      rw [if_pos rfl]
      simp [List.lookup]
    · have hb : (name == a) = false := by
        simp [Ne.symm hn]
      rw [if_neg hn]
      simp only [List.lookup, hb] at h ⊢
      exact ih h

/-- C7: a Send CLI invocation with fewer than 3 positional arguments
(argv includes the program name, so argc = argv.length < 4) prints the
usage message, exits with the non-zero status 1, and attempts no mq_open
(its trace of opened queue names is empty). -/
theorem c7_cli_few_args (argv : List String) (st : MQState) (h : argv.length < 4) :
    mqsend_main argv st =
      some { exit := 1, stdout := [],
             stderr := ["Usage: mqsend QUEUE_NAME MSG PRIO"],
             opens := [], sends := [], st := st } := by
  unfold mqsend_main
  rw [if_pos (Nat.ne_of_lt h)]

/-- Witness for C7 at the concrete invocation with a single positional
argument. -/
theorem c7_cli_few_args_witness :
    mqsend_main ["mqsend", "/q"] emptyState =
      some { exit := 1, stdout := [],
             stderr := ["Usage: mqsend QUEUE_NAME MSG PRIO"],
             opens := [], sends := [], st := emptyState } :=
  c7_cli_few_args ["mqsend", "/q"] emptyState (by decide)

/-- C9: the Send CLI requires exactly 3 positional arguments: an invocation
with more than 3 of them (argc = argv.length > 4) also prints the usage
message, exits with the non-zero status 1, and attempts no mq_open. -/
theorem c9_cli_many_args (argv : List String) (st : MQState) (h : 4 < argv.length) :
    mqsend_main argv st =
      some { exit := 1, stdout := [],
             stderr := ["Usage: mqsend QUEUE_NAME MSG PRIO"],
             opens := [], sends := [], st := st } := by
  unfold mqsend_main
  rw [if_pos (Nat.ne_of_gt h)]

/-- Witness for C9 at the concrete invocation with 4 positional arguments. -/
theorem c9_cli_many_args_witness :
    mqsend_main ["mqsend", "/q", "hi", "3", "extra"] emptyState =
      some { exit := 1, stdout := [],
             stderr := ["Usage: mqsend QUEUE_NAME MSG PRIO"],
             opens := [], sends := [], st := emptyState } :=
  c9_cli_many_args ["mqsend", "/q", "hi", "3", "extra"] emptyState (by decide)

/-- C8: a Send CLI invocation naming a queue that does not exist fails at
the open step: mq_open is attempted on the name, the process exits with
the non-zero status 1, and the diagnostic on standard error contains the
queue name and the OS error code ENOENT. -/
theorem c8_cli_absent_queue (a0 qn msg pr : String) (st : MQState)
    (hv : validName qn = true) (habs : st.queues.lookup qn = none) :
    mqsend_main [a0, qn, msg, pr] st =
      some { exit := 1, stdout := [],
             stderr := ["Opening queue: " ++ qn ++ " failed with error: "
                          ++ toString ENOENT ++ "\n"],
             opens := [qn], sends := [], st := st } := by
  unfold mqsend_main
  rw [if_neg (by simp)]
  simp only [List.getD_cons_succ, List.getD_cons_zero]
  unfold mq_open_plain
  rw [if_neg (by rw [hv]; decide), habs]

/-- Witness for C8 at the concrete name /missing in the empty namespace. -/
theorem c8_cli_absent_queue_witness :
    mqsend_main ["mqsend", "/missing", "hi", "3"] emptyState =
      some { exit := 1, stdout := [],
             stderr := ["Opening queue: " ++ "/missing" ++ " failed with error: "
                          ++ toString ENOENT ++ "\n"],
             opens := ["/missing"], sends := [], st := emptyState } :=
  c8_cli_absent_queue "mqsend" "/missing" "hi" "3" emptyState (by decide) (by decide)

/-- C2: the Send CLI transmits at the hardcoded priority 1. First: in every
completed run, every (bytes, priority) pair passed to mq_send has priority
1. Second: no run with argc other than 4 reaches the send step. Third: the
run outcome does not depend on the third positional argument at all -- the
parsed priority is accepted (atoi is applied to it) but never transmitted. -/
theorem c2_cli_priority_hardcoded :
    (∀ a0 a1 a2 a3 : String, ∀ st : MQState, ∀ r : CliRes,
      mqsend_main [a0, a1, a2, a3] st = some r → ∀ sp ∈ r.sends, sp.2 = 1) ∧
    (∀ argv : List String, ∀ st : MQState, ∀ r : CliRes,
      mqsend_main argv st = some r → argv.length ≠ 4 → r.sends = []) ∧
    (∀ a0 a1 a2 x y : String, ∀ st : MQState,
      mqsend_main [a0, a1, a2, x] st = mqsend_main [a0, a1, a2, y] st) := by
  refine ⟨?_, ?_, ?_⟩
  · intro a0 a1 a2 a3 st r h sp hsp
    unfold mqsend_main at h
    rw [if_neg (by simp)] at h
    simp only [List.getD_cons_succ, List.getD_cons_zero] at h
    cases hop : mq_open_plain a1 st with
    | err e st' =>
      rw [hop] at h
      cases h
      simp at hsp
    | ok mqd st' =>
      rw [hop] at h
      dsimp only at h
      cases hsend : mq_send mqd (strBytes a2) (strBytes a2).length 1 st' with
      | block => rw [hsend] at h; cases h
      | err e st2 =>
        rw [hsend] at h
        cases h
        simp at hsp
        rw [hsp]
      | ok v st2 =>
        rw [hsend] at h
        cases h
        simp at hsp
        rw [hsp]
  · intro argv st r h hlen
    unfold mqsend_main at h
    rw [if_pos hlen] at h
    cases h
    rfl
  · intro a0 a1 a2 x y st
    rfl

/-- Witness for C2: a concrete completed run whose single mq_send call
carries priority 1, and two concrete runs differing only in the priority
argument with identical outcomes. -/
theorem c2_cli_priority_hardcoded_witness :
    ((strBytes "hi", 1) : List Nat × Nat).2 = 1 ∧
    mqsend_main ["mqsend", "/q", "hi", "7"] roundState =
      mqsend_main ["mqsend", "/q", "hi", "3"] roundState := by
  have h : mqsend_main ["mqsend", "/q", "hi", "7"] roundState = some runRes := by decide
  exact ⟨c2_cli_priority_hardcoded.1 "mqsend" "/q" "hi" "7" roundState runRes h
          (strBytes "hi", 1) (by decide),
        c2_cli_priority_hardcoded.2.2 "mqsend" "/q" "hi" "7" "3" roundState⟩

/-- C10: in posixmq_recv the syscall result is stored in the unsigned type
size_t, so the check res < 0 is always false and the error branch is
unreachable: whenever posixmq_recv returns at all it returns 0, and when
the underlying mq_receive fails it stores 2^64 - 1 (the value -1 converted
to size_t) into *size_inout, leaving the buffer and *priority_out
untouched and printing nothing. -/
theorem c10_recv_unsigned_result_bug (mq cap : Nat) (st : MQState) :
    (∀ r ∈ posixmq_recv mq cap st, r.ret = 0) ∧
    (∀ e st', mq_receive mq cap st = .err e st' →
      posixmq_recv mq cap st =
        some { ret := 0, buf_out := none, size_inout := 2 ^ 64 - 1,
               priority_out := none, stdout := [], stderr := [], st := st' }) := by
  constructor
  · intro r hr
    unfold posixmq_recv at hr
    cases h : mq_receive mq cap st with
    | block => rw [h] at hr; cases hr
    | err e st' =>
      rw [h] at hr
      dsimp only at hr
      rw [if_neg (Nat.not_lt_zero _)] at hr
      simp only [Option.mem_def, Option.some.injEq] at hr
      rw [← hr]
    | ok v st' =>
      obtain ⟨bs, p⟩ := v
      rw [h] at hr
      dsimp only at hr
      rw [if_neg (Nat.not_lt_zero _)] at hr
      simp only [Option.mem_def, Option.some.injEq] at hr
      rw [← hr]
  · intro e st' h
    unfold posixmq_recv
    rw [h]
    dsimp only
    rw [if_neg (Nat.not_lt_zero _)]
    norm_num [UINT64_CAP]
    rfl

/-- Witness for C10 at descriptor 5 in the empty state, where mq_receive
fails with EBADF: the wrapper still returns 0 and reports length 2^64 - 1. -/
theorem c10_recv_unsigned_result_bug_witness :
    posixmq_recv 5 8 emptyState =
      some { ret := 0, buf_out := none, size_inout := 2 ^ 64 - 1,
             priority_out := none, stdout := [], stderr := [], st := emptyState } :=
  (c10_recv_unsigned_result_bug 5 8 emptyState).2 EBADF emptyState (by decide)

/-- C1 (code-bug evidence): at a queue with mq_msgsize 8 and a buffer
capacity of 4, and likewise at the invalid descriptor 7, the underlying
mq_receive fails and the message is not dequeued (the state is unchanged),
yet the wrapper posixmq_recv does NOT fail: it returns 0, not the -1 that
its own (unreachable) error branch was written to produce, and it stores
2^64 - 1 into *size_inout. -/
theorem c1_recv_buffer_too_small_not_reported :
    mq_receive 0 4 bugState = .err EMSGSIZE bugState ∧
    posixmq_recv 0 4 bugState =
      some { ret := 0, buf_out := none, size_inout := 2 ^ 64 - 1,
             priority_out := none, stdout := [], stderr := [], st := bugState } ∧
    mq_receive 7 8 bugState = .err EBADF bugState ∧
    posixmq_recv 7 8 bugState =
      some { ret := 0, buf_out := none, size_inout := 2 ^ 64 - 1,
             priority_out := none, stdout := [], stderr := [], st := bugState } := by
  refine ⟨by decide, by decide, by decide, by decide⟩

/-- C4: creating a queue that was absent with posixmq_open_create and then
calling posixmq_open_existing on the same name succeeds on both calls and
writes the attribute out-parameters equal to the values supplied at
creation. Validity of (name, size, depth): the name begins with a slash
and both capacities are non-zero. -/
theorem c4_create_then_open_attrs (name : String) (msz qsz : Nat) (st : MQState)
    (hv : validName name = true) (habs : st.queues.lookup name = none)
    (hmsz : msz ≠ 0) (hqsz : qsz ≠ 0) :
    (posixmq_open_create name msz qsz st).ret = 0 ∧
    (posixmq_open_existing name (posixmq_open_create name msz qsz st).st).ret = 0 ∧
    (posixmq_open_existing name
        (posixmq_open_create name msz qsz st).st).max_msg_size_out = some msz ∧
    (posixmq_open_existing name
        (posixmq_open_create name msz qsz st).st).max_queue_size_out = some qsz := by
  unfold posixmq_open_create mq_open_create
  rw [if_neg (by rw [hv]; decide), habs]
  rw [if_neg (by push_neg; exact ⟨hmsz, hqsz⟩)]
  unfold posixmq_open_existing mq_open_plain mq_getattr fdQueue
  rw [if_neg (by rw [hv]; decide)]
  simp [List.lookup]

/-- Witness for C4 at name /q with message size 64 and depth 10 in the
empty namespace. -/
theorem c4_create_then_open_attrs_witness :
    (posixmq_open_create "/q" 64 10 emptyState).ret = 0 ∧
    (posixmq_open_existing "/q" (posixmq_open_create "/q" 64 10 emptyState).st).ret = 0 ∧
    (posixmq_open_existing "/q"
        (posixmq_open_create "/q" 64 10 emptyState).st).max_msg_size_out = some 64 ∧
    (posixmq_open_existing "/q"
        (posixmq_open_create "/q" 64 10 emptyState).st).max_queue_size_out = some 10 :=
  c4_create_then_open_attrs "/q" 64 10 emptyState (by decide) (by decide)
    (by decide) (by decide)

/-- C3: on an otherwise-empty valid queue, a successful posixmq_send of a
message of size ≤ mq_msgsize at an in-range priority followed by
posixmq_recv into a buffer of capacity ≥ mq_msgsize yields the same
bytes, the same byte count and the same priority that were sent. -/
theorem c3_send_recv_roundtrip (fd : Nat) (name : String) (q : Queue) (bytes : List Nat)
    (prio cap : Nat) (st : MQState)
    (hfd : st.fds.lookup fd = some name) (hq : st.queues.lookup name = some q)
    (hempty : q.msgs = []) (hdepth : 0 < q.mq_maxmsg)
    (hsize : bytes.length ≤ q.mq_msgsize) (hprio : prio < MQ_PRIO_MAX)
    (hcap : q.mq_msgsize ≤ cap) (hlen : bytes.length < UINT64_CAP) :
    (posixmq_send fd bytes bytes.length prio st).isSome = true ∧
    ∀ r1 ∈ posixmq_send fd bytes bytes.length prio st,
      r1.ret = 0 ∧ (posixmq_recv fd cap r1.st).isSome = true ∧
      ∀ r2 ∈ posixmq_recv fd cap r1.st,
        r2.ret = 0 ∧ r2.buf_out = some bytes ∧ r2.size_inout = bytes.length ∧
        r2.priority_out = some prio := by
  have hfdq : fdQueue st fd = some (name, q) := by
    unfold fdQueue
    rw [hfd]
    dsimp only
    rw [hq]
  have hmsend : mq_send fd bytes bytes.length prio st =
      .ok () (setQueue name { q with msgs := [⟨bytes, prio⟩] } st) := by
    unfold mq_send
    rw [hfdq]
    dsimp only
    rw [if_neg (not_le.mpr hprio), if_neg (not_lt.mpr hsize), hempty]
    simp only [List.length_nil]
    rw [if_neg (not_le.mpr hdepth), List.take_length]
    rfl
  have hpsend : posixmq_send fd bytes bytes.length prio st =
      some { ret := 0, stdout := [], stderr := [],
             st := setQueue name { q with msgs := [⟨bytes, prio⟩] } st } := by
    unfold posixmq_send
    rw [hmsend]
  have hfdq1 : fdQueue (setQueue name { q with msgs := [⟨bytes, prio⟩] } st) fd =
      some (name, { q with msgs := [⟨bytes, prio⟩] }) := by
    unfold fdQueue setQueue
    dsimp only
    rw [hfd]
    dsimp only
    rw [lookup_map_update name { q with msgs := [⟨bytes, prio⟩] } st.queues
      (by rw [hq]; rfl)]
  have hmrecv : mq_receive fd cap (setQueue name { q with msgs := [⟨bytes, prio⟩] } st) =
      .ok (bytes, prio)
        (setQueue name { q with msgs := [] }
          (setQueue name { q with msgs := [⟨bytes, prio⟩] } st)) := by
    unfold mq_receive
    rw [hfdq1]
    dsimp only
    rw [if_neg (not_lt.mpr hcap)]
  have hprecv : posixmq_recv fd cap (setQueue name { q with msgs := [⟨bytes, prio⟩] } st) =
      some { ret := 0, buf_out := some bytes, size_inout := bytes.length,
             priority_out := some prio, stdout := [], stderr := [],
             st := setQueue name { q with msgs := [] }
               (setQueue name { q with msgs := [⟨bytes, prio⟩] } st) } := by
    unfold posixmq_recv
    rw [hmrecv]
    dsimp only
    rw [if_neg (Nat.not_lt_zero _), Nat.mod_eq_of_lt hlen]
  refine ⟨by rw [hpsend]; rfl, ?_⟩
  intro r1 hr1
  rw [hpsend] at hr1
  simp only [Option.mem_def, Option.some.injEq] at hr1
  subst hr1
  refine ⟨rfl, by rw [hprecv]; rfl, ?_⟩
  intro r2 hr2
  rw [hprecv] at hr2
  simp only [Option.mem_def, Option.some.injEq] at hr2
  subst hr2
  exact ⟨rfl, rfl, rfl, rfl⟩

/-- Witness for C3: sending the 3-byte message [7, 8, 9] at priority 3 on
the empty queue /q (mq_msgsize 8, mq_maxmsg 10) and receiving with buffer
capacity 8 returns the same bytes, count 3 and priority 3. -/
theorem c3_send_recv_roundtrip_witness :
    (posixmq_send 0 [7, 8, 9] [7, 8, 9].length 3 roundState).isSome = true ∧
    ∀ r1 ∈ posixmq_send 0 [7, 8, 9] [7, 8, 9].length 3 roundState,
      r1.ret = 0 ∧ (posixmq_recv 0 8 r1.st).isSome = true ∧
      ∀ r2 ∈ posixmq_recv 0 8 r1.st,
        r2.ret = 0 ∧ r2.buf_out = some [7, 8, 9] ∧ r2.size_inout = [7, 8, 9].length ∧
        r2.priority_out = some 3 :=
  c3_send_recv_roundtrip 0 "/q" { mq_maxmsg := 10, mq_msgsize := 8, msgs := [] }
    [7, 8, 9] 3 8 roundState (by decide) (by decide) (by decide) (by decide)
    (by decide) (by decide) (by decide) (by decide)

/-- C5 counterexample: posixmq_close on the invalid descriptor 5 in the
empty state. The underlying mq_close fails with EBADF, yet nothing is
written to standard error: the OS error code goes to standard output
(printf), refuting the claim that it is printed to standard error. -/
theorem c5_counterexample_close_prints_to_stdout :
    mq_close 5 emptyState = .err EBADF emptyState ∧
    (posixmq_close 5 emptyState).stderr = [] ∧
    (posixmq_close 5 emptyState).stdout = [errnoLine EBADF] := by
  refine ⟨by decide, by decide, by decide⟩

/-- C5 amended: when the underlying syscall of create-or-open,
open-existing, close, unlink or send fails, the OS error code is printed
to standard output (via printf), not standard error; a receive failure
prints nothing at all, because the error branch of posixmq_recv is
unreachable. -/
theorem c5_errno_printed_to_stdout :
    (∀ name : String, ∀ msz qsz : Nat, ∀ st : MQState, ∀ e : Nat, ∀ st' : MQState,
      mq_open_create name msz qsz st = .err e st' →
      (posixmq_open_create name msz qsz st).stdout = [errnoLine e] ∧
      (posixmq_open_create name msz qsz st).stderr = []) ∧
    (∀ name : String, ∀ st : MQState, ∀ e : Nat, ∀ st' : MQState,
      mq_open_plain name st = .err e st' →
      (posixmq_open_existing name st).stdout = [errnoLine e] ∧
      (posixmq_open_existing name st).stderr = []) ∧
    (∀ fd : Nat, ∀ st : MQState, ∀ e : Nat, ∀ st' : MQState,
      mq_close fd st = .err e st' →
      (posixmq_close fd st).stdout = [errnoLine e] ∧
      (posixmq_close fd st).stderr = []) ∧
    (∀ name : String, ∀ st : MQState, ∀ e : Nat, ∀ st' : MQState,
      mq_unlink name st = .err e st' →
      (posixmq_unlink name st).stdout = [errnoLine e] ∧
      (posixmq_unlink name st).stderr = []) ∧
    (∀ fd : Nat, ∀ msg : List Nat, ∀ size prio : Nat, ∀ st : MQState,
      ∀ e : Nat, ∀ st' : MQState,
      mq_send fd msg size prio st = .err e st' →
      posixmq_send fd msg size prio st =
        some { ret := -1, stdout := [errnoLine e], stderr := [], st := st' }) ∧
    (∀ fd cap : Nat, ∀ st : MQState, ∀ e : Nat, ∀ st' : MQState,
      mq_receive fd cap st = .err e st' →
      ∀ r ∈ posixmq_recv fd cap st, r.stdout = [] ∧ r.stderr = []) := by
  refine ⟨?_, ?_, ?_, ?_, ?_, ?_⟩
  · intro name msz qsz st e st' h
    unfold posixmq_open_create
    rw [h]
    exact ⟨rfl, rfl⟩
  · intro name st e st' h
    unfold posixmq_open_existing
    rw [h]
    exact ⟨rfl, rfl⟩
  · intro fd st e st' h
    unfold posixmq_close
    rw [h]
    exact ⟨rfl, rfl⟩
  · intro name st e st' h
    unfold posixmq_unlink
    rw [h]
    exact ⟨rfl, rfl⟩
  · intro fd msg size prio st e st' h
    unfold posixmq_send
    rw [h]
  · intro fd cap st e st' h r hr
    unfold posixmq_recv at hr
    rw [h] at hr
    dsimp only at hr
    rw [if_neg (Nat.not_lt_zero _)] at hr
    simp only [Option.mem_def, Option.some.injEq] at hr
    subst hr
    exact ⟨rfl, rfl⟩

/-- Witness for the amended C5 at the failing close of descriptor 6 in the
empty state: the errno line goes to standard output, standard error stays
empty. -/
theorem c5_errno_printed_to_stdout_witness :
    (posixmq_close 6 emptyState).stdout = [errnoLine EBADF] ∧
    (posixmq_close 6 emptyState).stderr = [] :=
  c5_errno_printed_to_stdout.2.2.1 6 emptyState EBADF emptyState (by decide)

/-- C6 counterexample: two failing posixmq_open_existing calls with
different OS error codes (EINVAL 22 for the slash-less name, ENOENT 2 for
the absent name) return the identical bare value -1, so the result is not
an operation-specific tagged error wrapping the error code; and a failing
posixmq_recv (invalid descriptor 5) returns 0, so its failure is not
surfaced to the caller at all. -/
theorem c6_counterexample_no_tagged_error :
    mq_open_plain "q0" emptyState = .err EINVAL emptyState ∧
    mq_open_plain "/absent" emptyState = .err ENOENT emptyState ∧
    (posixmq_open_existing "q0" emptyState).ret = -1 ∧
    (posixmq_open_existing "/absent" emptyState).ret = -1 ∧
    mq_receive 5 8 emptyState = .err EBADF emptyState ∧
    (posixmq_recv 5 8 emptyState).map RecvRes.ret = some 0 := by
  refine ⟨by decide, by decide, by decide, by decide, by decide, by decide⟩

/-- C6 amended: for create-or-open, open-existing, close, unlink and send,
a syscall failure is surfaced to the immediate caller as the bare result
value -1 -- the same value for every operation and every OS error code,
which is printed rather than carried in the result -- and the state the
operation returns is exactly the state the single failing syscall left
(no internal retry or recovery); receive surfaces no failure at all,
returning 0 with the state the failing mq_receive left. -/
theorem c6_failure_bare_result (name : String) (msz qsz fd cap size prio : Nat)
    (msg : List Nat) (st : MQState) (e : Nat) (st' : MQState) :
    (mq_open_create name msz qsz st = .err e st' →
      (posixmq_open_create name msz qsz st).ret = -1 ∧
      (posixmq_open_create name msz qsz st).st = st') ∧
    (mq_open_plain name st = .err e st' →
      (posixmq_open_existing name st).ret = -1 ∧
      (posixmq_open_existing name st).st = st') ∧
    (mq_close fd st = .err e st' →
      (posixmq_close fd st).ret = -1 ∧ (posixmq_close fd st).st = st') ∧
    (mq_unlink name st = .err e st' →
      (posixmq_unlink name st).ret = -1 ∧ (posixmq_unlink name st).st = st') ∧
    (mq_send fd msg size prio st = .err e st' →
      posixmq_send fd msg size prio st =
        some { ret := -1, stdout := [errnoLine e], stderr := [], st := st' }) ∧
    (mq_receive fd cap st = .err e st' →
      ∀ r ∈ posixmq_recv fd cap st, r.ret = 0 ∧ r.st = st') := by
  refine ⟨?_, ?_, ?_, ?_, ?_, ?_⟩
  · intro h
    unfold posixmq_open_create
    rw [h]
    exact ⟨rfl, rfl⟩
  · intro h
    unfold posixmq_open_existing
    rw [h]
    exact ⟨rfl, rfl⟩
  · intro h
    unfold posixmq_close
    rw [h]
    exact ⟨rfl, rfl⟩
  · intro h
    unfold posixmq_unlink
    rw [h]
    exact ⟨rfl, rfl⟩
  · intro h
    unfold posixmq_send
    rw [h]
  · intro h r hr
    unfold posixmq_recv at hr
    rw [h] at hr
    dsimp only at hr
    rw [if_neg (Nat.not_lt_zero _)] at hr
    simp only [Option.mem_def, Option.some.injEq] at hr
    subst hr
    exact ⟨rfl, rfl⟩

/-- Witness for the amended C6 at the failing unlink of the absent name
/nope in the empty state: the result is -1 and the state is the one the
failing syscall left. -/
theorem c6_failure_bare_result_witness :
    (posixmq_unlink "/nope" emptyState).ret = -1 ∧
    (posixmq_unlink "/nope" emptyState).st = emptyState :=
  (c6_failure_bare_result "/nope" 0 0 0 0 0 0 [] emptyState ENOENT
    emptyState).2.2.2.1 (by decide)

end SpackTrace
